import Mathlib

/-!
Verification of the Backblaze B2 storage driver
(`libcloud/storage/drivers/backblaze_b2.py`): a shallow embedding of the
authentication session, the request router, the response classifier and the
driver operations, followed by theorems about the routing, authentication
and upload logic.
-/

set_option autoImplicit false

namespace B2

/-- Truthiness of an optional Python string: `None` and the empty string are
falsy, every other string is truthy. -/
def truthyStr : Option String → Bool
  | none => false
  | some s => s ≠ ""

/-- Python `str()` interpolation of a possibly-`None` string value, as in
`'%s' % (auth_token)`. -/
def optStr : Option String → String
  | none => "None"
  | some s => s

/-- A Python `dict` with string keys and string values, modelled as its entry
list in insertion order (keys unique for dicts built by the driver). -/
abbrev Dict := List (String × String)

/-- `d[k]` lookup returning `none` when the key is absent. -/
def dictGet (d : Dict) (k : String) : Option String :=
  (d.find? (fun p => p.1 = k)).map (fun p => p.2)

/-- `d[k] = v` assignment: overwrites an existing entry in place, otherwise
appends the new entry (Python dicts preserve insertion order). -/
def dictSet (d : Dict) (k v : String) : Dict :=
  if d.any (fun p => p.1 = k) then
    d.map (fun p => if p.1 = k then (k, v) else p)
  else
    d ++ [(k, v)]

/-- A Python value handed to `request` as `data`: either a string payload or
a JSON-object dict. -/
inductive PyData where
  | str (s : String)
  | dict (entries : Dict)
deriving DecidableEq

/-- Truthiness of an optional `data` value: `None`, the empty string and the
empty dict are falsy. -/
def truthyData : Option PyData → Bool
  | none => false
  | some (.str s) => s ≠ ""
  | some (.dict es) => es ≠ []

/-- Model of the external JSON encoder `json.dumps` (an external collaborator
of the driver): strings are quoted, dicts are rendered as a JSON object with
the entries in insertion order. Escaping is not modelled; the development
only evaluates it on escape-free inputs. -/
def jsonDumps : PyData → String
  | .str s => "\"" ++ s ++ "\""
  | .dict es =>
      "\x7b" ++
        String.intercalate ", "
          (es.map (fun p => "\"" ++ p.1 ++ "\": \"" ++ p.2 ++ "\"")) ++
      "\x7d"

/-- Model of Python `str()` on a parsed JSON object (used only to build error
messages, whose exact text no theorem depends on). -/
def pyStr (d : Dict) : String :=
  "\x7b" ++
    String.intercalate ", " (d.map (fun p => p.1 ++ ": " ++ p.2)) ++
  "\x7d"

/-- The authority component of a URL: the characters after the first `//` up
to the next `/`, `?` or `#`. -/
def takeAuthority : List Char → List Char
  | [] => []
  | c :: cs => if c = '/' ∨ c = '?' ∨ c = '#' then [] else c :: takeAuthority cs

/-- Drops up to and including the first `//` of a URL; `none` when the URL
has no `//`. -/
def afterDoubleSlash : List Char → Option (List Char)
  | '/' :: '/' :: rest => some rest
  | _ :: rest => afterDoubleSlash rest
  | [] => none

/-- The remainder of a URL after its authority component. -/
def dropAuthority : List Char → List Char
  | [] => []
  | c :: cs => if c = '/' ∨ c = '?' ∨ c = '#' then c :: cs else dropAuthority cs

/-- The path component: everything up to the first `?` or `#`. -/
def takePath : List Char → List Char
  | [] => []
  | c :: cs => if c = '?' ∨ c = '#' then [] else c :: takePath cs

/-- Model of `urlparse.urlparse(url).netloc` (external collaborator): the URL
authority, empty when the URL carries no `//`. -/
def urlNetloc (url : String) : String :=
  match afterDoubleSlash url.data with
  | none => ""
  | some rest => ⟨takeAuthority rest⟩

/-- Model of `urlparse.urlparse(url).path` (external collaborator). -/
def urlPath (url : String) : String :=
  match afterDoubleSlash url.data with
  | none => ⟨takePath url.data⟩
  | some rest => ⟨takePath (dropAuthority rest)⟩

/-- The exceptions the embedded code can raise. `invalidCreds` is libcloud's
`InvalidCredsError` (the spec's AuthenticationError); `keyError`,
`valueError` and `typeError` are the Python built-ins; `generic` is a plain
`Exception`. -/
inductive PyErr where
  | invalidCreds (msg : String)
  | keyError (key : String)
  | valueError (msg : String)
  | typeError (msg : String)
  | generic (msg : String)
deriving DecidableEq

/-- `httplib.OK` -/
def httplibOK : Nat := 200
/-- `httplib.CREATED` -/
def httplibCREATED : Nat := 201
/-- `httplib.ACCEPTED` -/
def httplibACCEPTED : Nat := 202
/-- `httplib.UNAUTHORIZED` -/
def httplibUNAUTHORIZED : Nat := 401

/-- `API_PATH = '/b2api/v1/'` -/
def API_PATH : String := "/b2api/v1/"

/-- `AUTH_API_HOST = 'api.backblaze.com'` -/
def AUTH_API_HOST : String := "api.backblaze.com"

/-- A transport response as seen by `BackblazeB2Response`: the status code,
the parsed JSON object of the body, and the raw body text. -/
structure Resp where
  status : Nat
  body : Dict
  rawBody : String
deriving DecidableEq

/-- `BackblazeB2Response.success`: status in `[OK, CREATED, ACCEPTED]`. -/
def respSuccess (r : Resp) : Bool :=
  decide (r.status ∈ [httplibOK, httplibCREATED, httplibACCEPTED])

/-- `BackblazeB2Response.parse_error`: on status 401 raises
`InvalidCredsError(body['message'])` (a missing `message` key raises
`KeyError` first); on any other status returns the raw body. -/
def parse_error (r : Resp) : Except PyErr String :=
  if r.status = httplibUNAUTHORIZED then
    match dictGet r.body "message" with
    | some m => .error (.invalidCreds m)
    | none => .error (.keyError "message")
  else
    .ok r.rawBody

/-- Modelled from the spec: the base `Response` construction (libcloud
`common/base.py`, part of this repository but not under the provided
sources) invokes `parse_error` when the status is not a success, raising
what `parse_error` raises and otherwise surfacing the response unclassified
to the caller; a successful response is passed through. Spec 4.3: success
iff status is one of 200, 201, 202; status 401 raises AuthenticationError
with the parsed message field; any other non-success is surfaced
unclassified to the caller. -/
def processResponse (r : Resp) : Except PyErr Resp :=
  if respSuccess r then .ok r
  else
    match parse_error r with
    | .error e => .error e
    | .ok _ => .ok r

/-- The mutable state of `BackblazeB2AuthConnection`: all fields start as
`None` and are populated by `authenticate`. -/
structure AuthState where
  account_id : Option String
  api_url : Option String
  api_host : Option String
  download_url : Option String
  download_host : Option String
  auth_token : Option String
deriving DecidableEq

/-- The freshly constructed session: every field `None`. -/
def emptySession : AuthState :=
  { account_id := none, api_url := none, api_host := none,
    download_url := none, download_host := none, auth_token := none }

/-- `BackblazeB2AuthConnection._is_authentication_needed`: needed when the
token is falsy or `force` is set. -/
def is_authentication_needed (s : AuthState) (force : Bool) : Bool :=
  !truthyStr s.auth_token || force

/-- `BackblazeB2AuthConnection._parse_and_set_auth_info`: assigns the session
fields one `data[key]` lookup at a time, in source order (`accountId`,
`apiUrl`, `downloadUrl`, `authorizationToken`, then the hosts derived from
the URLs). A missing key raises `KeyError`; Python mutates `self` in order,
so the assignments already performed stay in place, which the returned pair
(state so far, optional raised error) records. -/
def parse_and_set_auth_info (s : AuthState) (data : Dict) :
    AuthState × Option PyErr :=
  match dictGet data "accountId" with
  | none => (s, some (.keyError "accountId"))
  | some accId =>
    let s1 := { s with account_id := some accId }
    match dictGet data "apiUrl" with
    | none => (s1, some (.keyError "apiUrl"))
    | some apiUrl =>
      let s2 := { s1 with api_url := some apiUrl }
      match dictGet data "downloadUrl" with
      | none => (s2, some (.keyError "downloadUrl"))
      | some dUrl =>
        let s3 := { s2 with download_url := some dUrl }
        match dictGet data "authorizationToken" with
        | none => (s3, some (.keyError "authorizationToken"))
        | some tok =>
          let s4 := { s3 with auth_token := some tok }
          let s5 := { s4 with api_host := some (urlNetloc apiUrl) }
          let s6 := { s5 with download_host := some (urlNetloc dUrl) }
          (s6, none)

/-- `BackblazeB2AuthConnection.authenticate`: returns how many handshakes
were performed (0 or 1) and the outcome. A raised error carries the session
state as left behind (Python mutates `self`, so a `KeyError` during parsing
leaves a partial update in place). The handshake transport exchange is
abstracted by the response `hr` it would produce; `processResponse` models
the response construction, after which a 200 populates the session and any
other status raises a plain `Exception`. -/
def authenticate (s : AuthState) (force : Bool) (hr : Resp) :
    Nat × Except (PyErr × AuthState) AuthState :=
  if ¬ is_authentication_needed s force then
    (0, .ok s)
  else
    match processResponse hr with
    | .error e => (1, .error (e, s))
    | .ok resp =>
      if resp.status = httplibOK then
        match parse_and_set_auth_info s resp.body with
        | (s2, none) => (1, .ok s2)
        | (s2, some e) => (1, .error (e, s2))
      else
        (1, .error (.generic ("Failed to authenticate: " ++ pyStr resp.body), s))

/-- The arguments of `BackblazeB2Connection.request`. -/
structure RequestArgs where
  action : String
  params : Dict
  data : Option PyData
  headers : Dict
  method : String
  raw : Bool
  include_account_id : Bool
  upload_host : Option String
  auth_token : Option String
deriving DecidableEq

/-- The request handed to the transport (the `super().request(...)` call). -/
structure OutRequest where
  host : Option String
  action : String
  params : Dict
  data : Option PyData
  headers : Dict
  method : String
  raw : Bool
deriving DecidableEq

/-- The account-id injection of `request` (lines 184-189): for GET the id is
added to the query parameters; for POST `data = data or ` empty dict, then
`data['accountId']` is assigned, which raises `TypeError` when `data` is a
truthy string. -/
def injectAccountId (accId : Option String) (method : String)
    (params : Dict) (data : Option PyData) :
    Except PyErr (Dict × Option PyData) :=
  if method = "GET" then
    .ok (dictSet params "accountId" (optStr accId), data)
  else if method = "POST" then
    match data with
    | some (.str s) =>
      if s = "" then .ok (params, some (.dict [("accountId", optStr accId)]))
      else .error (.typeError "str object does not support item assignment")
    | some (.dict es) =>
      if es = [] then .ok (params, some (.dict [("accountId", optStr accId)]))
      else .ok (params, some (.dict (dictSet es "accountId" (optStr accId))))
    | none => .ok (params, some (.dict [("accountId", optStr accId)]))
  else
    .ok (params, data)

/-- Lines 156-205 of `BackblazeB2Connection.request`, after the lazy
`authenticate` call: host resolution, authorization header, content type,
account-id injection, path shaping, body encoding, and the final transport
call. `prevHost` is `self.host` before the call (class default `None`);
`auth` is the authenticated session. -/
def buildRequest (prevHost : Option String) (auth : AuthState)
    (args : RequestArgs) : Except PyErr OutRequest :=
  let host0 : Option String :=
    if args.raw then
      if args.method = "GET" then auth.download_host
      else if args.method = "POST" then args.upload_host
      else prevHost
    else auth.api_host
  let host := if truthyStr args.upload_host then args.upload_host else host0
  let tok := if truthyStr args.auth_token then args.auth_token else auth.auth_token
  let headers := dictSet args.headers "Authorization" (optStr tok)
  let headers :=
    if ¬ args.raw ∧ truthyData args.data then
      dictSet headers "Content-Type" "application/json"
    else headers
  let step :=
    if args.include_account_id then
      injectAccountId auth.account_id args.method args.params args.data
    else .ok (args.params, args.data)
  match step with
  | .error e => .error e
  | .ok (params, data) =>
    let action :=
      if ¬ args.raw ∧ ¬ truthyStr args.upload_host then API_PATH ++ args.action
      else if args.method = "GET" then "/file/" ++ args.action
      else args.action
    let data :=
      match data with
      | some d =>
        if truthyData (some d) ∧ ¬ truthyStr args.upload_host then
          some (.str (jsonDumps d))
        else some d
      | none => none
    .ok { host := host, action := action, params := params, data := data,
          headers := headers, method := args.method, raw := args.raw }

/-- `BackblazeB2Connection.request` (lines 148-206): lazily authenticates
(force false), then builds and issues the transport request. A raised error
carries the session state at the time of the raise. -/
def request (prevHost : Option String) (s : AuthState) (hr : Resp)
    (args : RequestArgs) : Except (PyErr × AuthState) (AuthState × OutRequest) :=
  match authenticate s false hr with
  | (_, .error es) => .error es
  | (_, .ok auth) =>
    match buildRequest prevHost auth args with
    | .error e => .error (e, auth)
    | .ok out => .ok (auth, out)

/-- The upload ticket returned by `ex_get_upload_data` (the driver reads the
`uploadUrl` and `authorizationToken` entries of the response object). -/
structure UploadTicket where
  uploadUrl : String
  authorizationToken : String
deriving DecidableEq

/-- The metadata loop of `upload_object` (lines 311-314): Python iterates
the keys of the `meta_data` dict and unpacks each key into `key, value`, so
a key that is not a two-element sequence raises `ValueError`, and a
two-character key `ab` yields the header `X-Bz-Info-a` with value `b`. The
dict is modelled as its entry list in insertion order. -/
def addMetaHeaders (headers : Dict) : Dict → Except PyErr Dict
  | [] => .ok headers
  | (k, _) :: rest =>
    match k.data with
    | [a, b] =>
      addMetaHeaders
        (dictSet headers ("X-Bz-Info-" ++ String.mk [a]) (String.mk [b])) rest
    | _ => .error (.valueError ("cannot unpack dict key " ++ k))

/-- `BackblazeB2StorageDriver.upload_object` (lines 282-327) up to and
including the transport request it issues: the whole payload is read into
`payload`; `sha1hex` abstracts the external `hashlib.sha1(...).hexdigest()`;
`content_type` and `meta_data` are `extra['content_type']` /
`extra['meta_data']`; the ticket-fetch round trip (`ex_get_upload_data`) is
abstracted by the `ticket` it returns. Builds the upload headers, derives
host and path from the ticket URL and issues the POST through `request`
with the ticket token. A raised error carries the session state at the
raise. -/
def upload_object (sha1hex : String → String) (prevHost : Option String)
    (s : AuthState) (hr : Resp) (payload : String) (object_name : String)
    (content_type : Option String) (meta_data : Dict) (headers : Dict)
    (ticket : UploadTicket) :
    Except (PyErr × AuthState) (AuthState × OutRequest) :=
  let ct := match content_type with | some c => c | none => "b2/x-auto"
  let hs := dictSet headers "X-Bz-File-Name" object_name
  let hs := dictSet hs "Content-Type" ct
  let hs := dictSet hs "X-Bz-Content-Sha1" (sha1hex payload)
  match addMetaHeaders hs meta_data with
  | .error e => .error (e, s)
  | .ok hs =>
    let upload_host := urlNetloc ticket.uploadUrl
    let request_path := urlPath ticket.uploadUrl
    request prevHost s hr
      { action := request_path, params := [], data := some (.str payload),
        headers := hs, method := "POST", raw := false,
        include_account_id := false, upload_host := some upload_host,
        auth_token := some ticket.authorizationToken }

/-- The `request` arguments built by `delete_container` (lines 243-249). -/
def deleteContainerArgs (bucketId : String) : RequestArgs :=
  { action := "b2_delete_bucket", params := [],
    data := some (.dict [("bucketId", bucketId)]), headers := [],
    method := "POST", raw := false, include_account_id := true,
    upload_host := none, auth_token := none }

/-- `BackblazeB2StorageDriver.delete_container`: issues the delete-bucket
POST (`resp` abstracts the transport response, classified by
`processResponse`) and returns `resp.status == httplib.OK`. -/
def delete_container (prevHost : Option String) (s : AuthState) (hr : Resp)
    (bucketId : String) (resp : Resp) : Except (PyErr × AuthState) Bool :=
  match request prevHost s hr (deleteContainerArgs bucketId) with
  | .error es => .error es
  | .ok (auth, _) =>
    match processResponse resp with
    | .error e => .error (e, auth)
    | .ok r => .ok (decide (r.status = httplibOK))

/-- The `request` arguments built by `delete_object` (lines 337-343). -/
def deleteObjectArgs (fileName fileId : String) : RequestArgs :=
  { action := "b2_delete_file_version", params := [],
    data := some (.dict [("fileName", fileName), ("fileId", fileId)]),
    headers := [], method := "POST", raw := false,
    include_account_id := false, upload_host := none, auth_token := none }

/-- `BackblazeB2StorageDriver.delete_object`: issues the
delete-file-version POST and returns `resp.status == httplib.OK`. -/
def delete_object (prevHost : Option String) (s : AuthState) (hr : Resp)
    (fileName fileId : String) (resp : Resp) :
    Except (PyErr × AuthState) Bool :=
  match request prevHost s hr (deleteObjectArgs fileName fileId) with
  | .error es => .error es
  | .ok (auth, _) =>
    match processResponse resp with
    | .error e => .error (e, auth)
    | .ok r => .ok (decide (r.status = httplibOK))

/-- A session already primed by a successful handshake, used as a concrete
input by several witnesses and counterexamples. -/
def primedSession : AuthState :=
  { account_id := some "acct1",
    api_url := some "https://api900.backblazeb2.example",
    api_host := some "api900.backblazeb2.example",
    download_url := some "https://f900.backblazeb2.example",
    download_host := some "f900.backblazeb2.example",
    auth_token := some "sessionToken1" }

/-- A well-formed 200 handshake response. -/
def okHandshake : Resp :=
  { status := 200,
    body := [("accountId", "acct1"),
             ("apiUrl", "https://api900.backblazeb2.example"),
             ("downloadUrl", "https://f900.backblazeb2.example"),
             ("authorizationToken", "sessionToken1")],
    rawBody := "" }

/-- Extracts the transport request from a non-raising `request` run (dummy
record when the run raised). -/
def okOut (r : Except (PyErr × AuthState) (AuthState × OutRequest)) : OutRequest :=
  match r with
  | .ok pr => pr.2
  | .error _ => { host := none, action := "", params := [], data := none,
                  headers := [], method := "", raw := false }

theorem dictGet_map_overwrite (d : Dict) (k v k2 : String) (h : k2 ≠ k) :
    dictGet (d.map (fun p => if p.1 = k then (k, v) else p)) k2 = dictGet d k2 := by
  induction d with
  | nil => rfl
  | cons p rest ih =>
      by_cases hp : p.1 = k
      · have hif : (if p.1 = k then (k, v) else p) = (k, v) := by simp [hp]
        simp only [List.map_cons, hif, dictGet]
        rw [List.find?_cons_of_neg _ (by simp [Ne.symm h]),
          List.find?_cons_of_neg _ (by simp [hp, Ne.symm h])]
        exact ih
      · have hif : (if p.1 = k then (k, v) else p) = p := by simp [hp]
        simp only [List.map_cons, hif, dictGet]
        by_cases hq : p.1 = k2
        · rw [List.find?_cons_of_pos _ (by simp [hq]),
            List.find?_cons_of_pos _ (by simp [hq])]
        · rw [List.find?_cons_of_neg _ (by simp [hq]),
            List.find?_cons_of_neg _ (by simp [hq])]
          exact ih

theorem dictGet_append_single (d : Dict) (k v k2 : String) (h : k2 ≠ k) :
    dictGet (d ++ [(k, v)]) k2 = dictGet d k2 := by
  induction d with
  | nil =>
      simp only [List.nil_append, dictGet]
      rw [List.find?_cons_of_neg _ (by simp [Ne.symm h])]
  | cons p rest ih =>
      simp only [List.cons_append, dictGet]
      by_cases hq : p.1 = k2
      · rw [List.find?_cons_of_pos _ (by simp [hq]),
          List.find?_cons_of_pos _ (by simp [hq])]
      · rw [List.find?_cons_of_neg _ (by simp [hq]),
          List.find?_cons_of_neg _ (by simp [hq])]
        exact ih

theorem dictGet_map_self (d : Dict) (k v : String)
    (hany : d.any (fun p => p.1 = k) = true) :
    dictGet (d.map (fun p => if p.1 = k then (k, v) else p)) k = some v := by
  induction d with
  | nil => simp at hany
  | cons p rest ih =>
      by_cases hp : p.1 = k
      · have hif : (if p.1 = k then (k, v) else p) = (k, v) := by simp [hp]
        simp only [List.map_cons, hif, dictGet]
        rw [List.find?_cons_of_pos _ (by simp)]
        rfl
      · have hrest : rest.any (fun p => p.1 = k) = true := by
          simpa [hp] using hany
        have hif : (if p.1 = k then (k, v) else p) = p := by simp [hp]
        simp only [List.map_cons, hif, dictGet]
        rw [List.find?_cons_of_neg _ (by simp [hp])]
        exact ih hrest

theorem dictGet_append_self (d : Dict) (k v : String)
    (hany : ¬ d.any (fun p => p.1 = k) = true) :
    dictGet (d ++ [(k, v)]) k = some v := by
  induction d with
  | nil =>
      simp only [List.nil_append, dictGet]
      rw [List.find?_cons_of_pos _ (by simp)]
      rfl
  | cons p rest ih =>
      simp only [List.any_cons, Bool.or_eq_true, not_or] at hany
      have hp : ¬ (p.1 = k) := by
        intro hc
        exact hany.1 (by simp [hc])
      simp only [List.cons_append, dictGet]
      rw [List.find?_cons_of_neg _ (by simp [hp])]
      exact ih (by simpa using hany.2)

theorem dictGet_dictSet_ne (d : Dict) (k v k2 : String) (h : k2 ≠ k) :
    dictGet (dictSet d k v) k2 = dictGet d k2 := by
  unfold dictSet
  split
  · exact dictGet_map_overwrite d k v k2 h
  · exact dictGet_append_single d k v k2 h

theorem dictGet_dictSet_self (d : Dict) (k v : String) :
    dictGet (dictSet d k v) k = some v := by
  unfold dictSet
  split
  · rename_i hany
    exact dictGet_map_self d k v hany
  · rename_i hany
    exact dictGet_append_self d k v hany

theorem authenticate_primed (s : AuthState) (hr : Resp)
    (h : truthyStr s.auth_token = true) :
    authenticate s false hr = (0, .ok s) := by
  unfold authenticate is_authentication_needed
  simp [h]

theorem request_ok_build (p : Option String) (s : AuthState) (hr : Resp)
    (args : RequestArgs) (auth : AuthState) (out : OutRequest)
    (h : request p s hr args = .ok (auth, out)) :
    buildRequest p auth args = .ok out := by
  unfold request at h
  split at h
  · exact absurd h (by simp)
  · rename_i heq
    split at h
    · exact absurd h (by simp)
    · rename_i hbuild
      injection h with h1
      injection h1 with ha hb
      subst ha
      subst hb
      exact hbuild

theorem buildRequest_ok_host (p : Option String) (a : AuthState)
    (args : RequestArgs) (out : OutRequest)
    (h : buildRequest p a args = .ok out) :
    out.host = (if truthyStr args.upload_host then args.upload_host
      else if args.raw then
        (if args.method = "GET" then a.download_host
         else if args.method = "POST" then args.upload_host else p)
      else a.api_host) := by
  simp only [buildRequest] at h
  split at h
  · simp at h
  · injection h with h1
    subst h1
    rfl

theorem buildRequest_ok_action (p : Option String) (a : AuthState)
    (args : RequestArgs) (out : OutRequest)
    (h : buildRequest p a args = .ok out) :
    out.action = (if ¬ args.raw ∧ ¬ truthyStr args.upload_host then
        API_PATH ++ args.action
      else if args.method = "GET" then "/file/" ++ args.action
      else args.action) := by
  simp only [buildRequest] at h
  split at h
  · simp at h
  · injection h with h1
    subst h1
    rfl

theorem buildRequest_ok_headers (p : Option String) (a : AuthState)
    (args : RequestArgs) (out : OutRequest)
    (h : buildRequest p a args = .ok out) :
    out.headers = (if ¬ args.raw ∧ truthyData args.data then
        dictSet (dictSet args.headers "Authorization"
          (optStr (if truthyStr args.auth_token then args.auth_token
                   else a.auth_token))) "Content-Type" "application/json"
      else dictSet args.headers "Authorization"
        (optStr (if truthyStr args.auth_token then args.auth_token
                 else a.auth_token))) := by
  simp only [buildRequest] at h
  split at h
  · simp at h
  · injection h with h1
    subst h1
    rfl

theorem buildRequest_ok_data (p : Option String) (a : AuthState)
    (args : RequestArgs) (out : OutRequest)
    (h : buildRequest p a args = .ok out)
    (hacc : args.include_account_id = false) :
    out.data = (match args.data with
      | some d =>
        if truthyData (some d) ∧ ¬ truthyStr args.upload_host then
          some (.str (jsonDumps d))
        else some d
      | none => none) := by
  simp only [buildRequest] at h
  split at h
  · simp at h
  · rename_i params data heq
    simp only [hacc, Bool.false_eq_true, if_false, Except.ok.injEq,
      Prod.mk.injEq] at heq
    obtain ⟨hp, hd⟩ := heq
    subst hp
    subst hd
    injection h with h1
    subst h1
    rfl

/-- C1 (amended): for every call to `BackblazeB2Connection.request` that
reaches the transport, the target host is resolved as: an explicit truthy
`uploadHost` argument wins; else raw GET uses the session's download host;
else raw POST uses the `uploadHost` argument as given; else a non-raw
request uses the session's API host; and a raw request with any other
method leaves the previously set connection host in place. -/
theorem request_host_resolution (prevHost : Option String) (s : AuthState)
    (hr : Resp) (args : RequestArgs) (auth : AuthState) (out : OutRequest)
    (h : request prevHost s hr args = .ok (auth, out)) :
    out.host = (if truthyStr args.upload_host then args.upload_host
      else if args.raw ∧ args.method = "GET" then auth.download_host
      else if args.raw ∧ args.method = "POST" then args.upload_host
      else if ¬ args.raw then auth.api_host
      else prevHost) := by
  rw [buildRequest_ok_host prevHost auth args out (request_ok_build _ _ _ _ _ _ h)]
  by_cases hu : truthyStr args.upload_host = true
  · simp [hu]
  · by_cases hraw : args.raw = true
    · by_cases hg : args.method = "GET"
      · simp [hu, hraw, hg]
      · by_cases hpo : args.method = "POST"
        · simp [hu, hraw, hg, hpo]
        · simp [hu, hraw, hg, hpo]
    · simp [hu, hraw]

/-- Concrete raw GET call used by the witness of `request_host_resolution`. -/
def argsC1w : RequestArgs :=
  { action := "cont/obj", params := [], data := none, headers := [],
    method := "GET", raw := true, include_account_id := false,
    upload_host := none, auth_token := none }

/-- Witness: a raw GET on the primed session resolves to the download host. -/
theorem request_host_resolution_witness :
    (okOut (request none primedSession okHandshake argsC1w)).host
      = some "f900.backblazeb2.example" := by
  have h := request_host_resolution none primedSession okHandshake argsC1w
    primedSession (okOut (request none primedSession okHandshake argsC1w)) rfl
  rw [h]
  rfl

/-- Concrete raw call with method PUT refuting C1 as stated. -/
def argsC1cex : RequestArgs :=
  { action := "a", params := [], data := none, headers := [], method := "PUT",
    raw := true, include_account_id := false, upload_host := none,
    auth_token := none }

/-- C1 as stated is false: a raw request with method PUT and no uploadHost
keeps the previously set connection host instead of resolving to the
session's API host. -/
theorem request_host_claim_counterexample :
    (okOut (request (some "stale.example") primedSession okHandshake
        argsC1cex)).host = some "stale.example"
    ∧ (okOut (request (some "stale.example") primedSession okHandshake
        argsC1cex)).host ≠ primedSession.api_host := by
  constructor
  · rfl
  · decide

/-- C2 (amended): the request path is: for a non-raw request without a
truthy `uploadHost`, the action prefixed with the fixed API-version segment;
otherwise, for any request with method GET (raw downloads, but also a
request carrying an explicit `uploadHost` with method GET), the action
prefixed with the fixed file-serving segment; otherwise (raw POST, or an
explicit `uploadHost` with a non-GET method) the action verbatim. -/
theorem request_path_shaping (prevHost : Option String) (s : AuthState)
    (hr : Resp) (args : RequestArgs) (auth : AuthState) (out : OutRequest)
    (h : request prevHost s hr args = .ok (auth, out)) :
    out.action = (if ¬ args.raw ∧ ¬ truthyStr args.upload_host then
        API_PATH ++ args.action
      else if args.method = "GET" then "/file/" ++ args.action
      else args.action) :=
  buildRequest_ok_action prevHost auth args out (request_ok_build _ _ _ _ _ _ h)

/-- Concrete non-raw call used by the witness of `request_path_shaping`. -/
def argsC2w : RequestArgs :=
  { action := "b2_list_buckets", params := [], data := none, headers := [],
    method := "GET", raw := false, include_account_id := false,
    upload_host := none, auth_token := none }

/-- Witness: a plain API call gets the version-segment path. -/
theorem request_path_shaping_witness :
    (okOut (request none primedSession okHandshake argsC2w)).action
      = "/b2api/v1/b2_list_buckets" := by
  have h := request_path_shaping none primedSession okHandshake argsC2w
    primedSession (okOut (request none primedSession okHandshake argsC2w)) rfl
  rw [h]
  rfl

/-- Concrete call with an explicit uploadHost and method GET refuting C2 as
stated. -/
def argsC2cex : RequestArgs :=
  { action := "a", params := [], data := none, headers := [], method := "GET",
    raw := false, include_account_id := false,
    upload_host := some "files.example", auth_token := none }

/-- C2 as stated is false: a request with an explicit uploadHost and method
GET gets the file-serving path, not the action verbatim (nor the API
segment). -/
theorem request_path_claim_counterexample :
    (okOut (request none primedSession okHandshake argsC2cex)).action
        = "/file/a"
    ∧ (okOut (request none primedSession okHandshake argsC2cex)).action ≠ "a"
    ∧ (okOut (request none primedSession okHandshake argsC2cex)).host
        = some "files.example" := by
  refine ⟨rfl, ?_, rfl⟩
  decide

/-- C3 (amended): for calls without account-id injection, the body is
JSON-encoded exactly when a truthy body is present and no truthy
`uploadHost` argument is supplied (so raw requests without an uploadHost do
get JSON-encoded, and non-raw requests with an uploadHost do not), and the
JSON content-type header is set exactly when the request is non-raw and a
truthy body is present. -/
theorem request_body_shaping (prevHost : Option String) (s : AuthState)
    (hr : Resp) (args : RequestArgs) (auth : AuthState) (out : OutRequest)
    (h : request prevHost s hr args = .ok (auth, out))
    (hacc : args.include_account_id = false) :
    ((truthyData args.data ∧ ¬ truthyStr args.upload_host) →
        out.data = args.data.map (fun d => PyData.str (jsonDumps d)))
    ∧ (¬ (truthyData args.data ∧ ¬ truthyStr args.upload_host) →
        out.data = args.data)
    ∧ ((¬ args.raw ∧ truthyData args.data) →
        dictGet out.headers "Content-Type" = some "application/json")
    ∧ (¬ (¬ args.raw ∧ truthyData args.data) →
        dictGet out.headers "Content-Type"
          = dictGet args.headers "Content-Type") := by
  have hb := request_ok_build prevHost s hr args auth out h
  have hdata := buildRequest_ok_data prevHost auth args out hb hacc
  have hheaders := buildRequest_ok_headers prevHost auth args out hb
  refine ⟨?_, ?_, ?_, ?_⟩
  · intro hcond
    rw [hdata]
    cases hd : args.data with
    | none =>
        rw [hd] at hcond
        simp [truthyData] at hcond
    | some d =>
        rw [hd] at hcond
        simp [hcond]
  · intro hcond
    cases hd : args.data with
    | none =>
        rw [hdata, hd]
    | some d =>
        rw [hd] at hcond
        simp only [hdata, hd]
        rw [if_neg hcond]
  · intro hcond
    rw [hheaders, if_pos hcond]
    exact dictGet_dictSet_self _ _ _
  · intro hcond
    rw [hheaders, if_neg hcond]
    exact dictGet_dictSet_ne _ _ _ _ (by decide)

/-- Concrete non-raw POST with a dict body used by the witness of
`request_body_shaping`. -/
def argsC3w : RequestArgs :=
  { action := "b2_delete_bucket", params := [],
    data := some (.dict [("bucketId", "b1")]), headers := [],
    method := "POST", raw := false, include_account_id := false,
    upload_host := none, auth_token := none }

/-- Witness: a non-raw POST without uploadHost JSON-encodes its body and
carries the JSON content-type header. -/
theorem request_body_shaping_witness :
    (okOut (request none primedSession okHandshake argsC3w)).data
      = some (.str "\x7b\"bucketId\": \"b1\"\x7d")
    ∧ dictGet (okOut (request none primedSession okHandshake
        argsC3w)).headers "Content-Type" = some "application/json" := by
  have h := request_body_shaping none primedSession okHandshake argsC3w
    primedSession (okOut (request none primedSession okHandshake argsC3w))
    rfl rfl
  refine ⟨?_, h.2.2.1 (by decide)⟩
  have h1 := h.1 (by decide)
  rw [h1]
  decide

/-- Concrete non-raw call with an uploadHost and a string body refuting C3
as stated. -/
def argsC3cex : RequestArgs :=
  { action := "/b2api/v1/b2_upload_file/bkt", params := [],
    data := some (.str "x"), headers := [], method := "POST", raw := false,
    include_account_id := false, upload_host := some "pod.example",
    auth_token := some "tick" }

/-- C3 as stated is false: a raw=false request with an explicit uploadHost
passes its body through unmodified (no JSON encoding), even though the JSON
content-type header is set. -/
theorem request_body_claim_counterexample :
    (okOut (request none primedSession okHandshake argsC3cex)).data
        = some (.str "x")
    ∧ (some (PyData.str "x")
        ≠ some (PyData.str (jsonDumps (.str "x"))))
    ∧ dictGet (okOut (request none primedSession okHandshake
        argsC3cex)).headers "Content-Type" = some "application/json" := by
  refine ⟨rfl, ?_, rfl⟩
  decide

theorem processResponse_ok_eq (r r2 : Resp) (h : processResponse r = .ok r2) :
    r2 = r := by
  unfold processResponse at h
  split at h
  · injection h with h1
    exact h1.symm
  · split at h
    · exact absurd h (by simp)
    · injection h with h1
      exact h1.symm

theorem parse_ok_fields (s : AuthState) (d : Dict) (s2 : AuthState)
    (h : parse_and_set_auth_info s d = (s2, none)) :
    s2.account_id = dictGet d "accountId"
    ∧ s2.api_url = dictGet d "apiUrl"
    ∧ s2.download_url = dictGet d "downloadUrl"
    ∧ s2.auth_token = dictGet d "authorizationToken"
    ∧ s2.api_host = (dictGet d "apiUrl").map urlNetloc
    ∧ s2.download_host = (dictGet d "downloadUrl").map urlNetloc := by
  cases ha : dictGet d "accountId" with
  | none => simp [parse_and_set_auth_info, ha] at h
  | some accId =>
    cases hapi : dictGet d "apiUrl" with
    | none => simp [parse_and_set_auth_info, ha, hapi] at h
    | some apiUrl =>
      cases hdown : dictGet d "downloadUrl" with
      | none => simp [parse_and_set_auth_info, ha, hapi, hdown] at h
      | some dUrl =>
        cases htok : dictGet d "authorizationToken" with
        | none => simp [parse_and_set_auth_info, ha, hapi, hdown, htok] at h
        | some tok =>
          simp only [parse_and_set_auth_info, ha, hapi, hdown, htok,
            Prod.mk.injEq] at h
          obtain ⟨h1, -⟩ := h
          subst h1
          simp

theorem parse_err_keyError (s : AuthState) (d : Dict) (s2 : AuthState)
    (e : PyErr) (h : parse_and_set_auth_info s d = (s2, some e)) :
    ∃ k, e = .keyError k := by
  cases ha : dictGet d "accountId" with
  | none =>
      simp only [parse_and_set_auth_info, ha, Prod.mk.injEq] at h
      exact ⟨"accountId", Option.some.inj h.2.symm⟩
  | some accId =>
    cases hapi : dictGet d "apiUrl" with
    | none =>
        simp only [parse_and_set_auth_info, ha, hapi, Prod.mk.injEq] at h
        exact ⟨"apiUrl", Option.some.inj h.2.symm⟩
    | some apiUrl =>
      cases hdown : dictGet d "downloadUrl" with
      | none =>
          simp only [parse_and_set_auth_info, ha, hapi, hdown,
            Prod.mk.injEq] at h
          exact ⟨"downloadUrl", Option.some.inj h.2.symm⟩
      | some dUrl =>
        cases htok : dictGet d "authorizationToken" with
        | none =>
            simp only [parse_and_set_auth_info, ha, hapi, hdown, htok,
              Prod.mk.injEq] at h
            exact ⟨"authorizationToken", Option.some.inj h.2.symm⟩
        | some tok =>
            simp [parse_and_set_auth_info, ha, hapi, hdown, htok] at h

/-- C4 (amended): when the authorize-account handshake returns 401, the
session machinery raises the credentials error carrying the server message;
any other non-200 status — including the non-200 success statuses — makes
`authenticate` raise a plain exception; a 200 response with a well-formed
body populates the session fields from the handshake response. -/
theorem authenticate_handshake_outcomes :
    (∀ (s : AuthState) (force : Bool) (hr : Resp) (m : String),
        is_authentication_needed s force = true → hr.status = 401 →
        dictGet hr.body "message" = some m →
        authenticate s force hr = (1, .error (.invalidCreds m, s)))
    ∧ (∀ (s : AuthState) (force : Bool) (hr : Resp),
        is_authentication_needed s force = true → hr.status ≠ 200 →
        hr.status ≠ 401 →
        authenticate s force hr
          = (1, .error (.generic
              ("Failed to authenticate: " ++ pyStr hr.body), s)))
    ∧ (∀ (s : AuthState) (force : Bool) (hr : Resp) (s2 : AuthState),
        is_authentication_needed s force = true → hr.status = 200 →
        parse_and_set_auth_info s hr.body = (s2, none) →
        authenticate s force hr = (1, .ok s2)
          ∧ s2.account_id = dictGet hr.body "accountId"
          ∧ s2.api_url = dictGet hr.body "apiUrl"
          ∧ s2.download_url = dictGet hr.body "downloadUrl"
          ∧ s2.auth_token = dictGet hr.body "authorizationToken") := by
  refine ⟨?_, ?_, ?_⟩
  · intro s force hr m hneed h401 hm
    have hsucc : respSuccess hr = false := by
      simp [respSuccess, h401, httplibOK, httplibCREATED, httplibACCEPTED]
    have hpe : parse_error hr = .error (.invalidCreds m) := by
      simp [parse_error, h401, httplibUNAUTHORIZED, hm]
    simp [authenticate, hneed, processResponse, hsucc, hpe]
  · intro s force hr hneed hne200 hne401
    have hpe : processResponse hr = .ok hr := by
      unfold processResponse
      split
      · rfl
      · have : parse_error hr = .ok hr.rawBody := by
          simp [parse_error, httplibUNAUTHORIZED, hne401]
        rw [this]
    simp [authenticate, hneed, hpe, httplibOK, hne200]
  · intro s force hr s2 hneed h200 hparse
    have hsucc : respSuccess hr = true := by
      simp [respSuccess, h200, httplibOK]
    have hpr : processResponse hr = .ok hr := by
      simp [processResponse, hsucc]
    refine ⟨?_, ?_, ?_, ?_, ?_⟩
    · simp [authenticate, hneed, hpr, httplibOK, h200, hparse]
    · exact (parse_ok_fields s hr.body s2 hparse).1
    · exact (parse_ok_fields s hr.body s2 hparse).2.1
    · exact (parse_ok_fields s hr.body s2 hparse).2.2.1
    · exact (parse_ok_fields s hr.body s2 hparse).2.2.2.1

/-- Whether a raised outcome is the credentials error (the spec's
AuthenticationError). -/
def raisesAuthError (r : Except (PyErr × AuthState) AuthState) : Bool :=
  match r with
  | .error (.invalidCreds _, _) => true
  | _ => false

/-- A non-success, non-401 handshake response. -/
def resp400 : Resp :=
  { status := 400, body := [("message", "bad request")], rawBody := "rb" }

/-- C4 as stated is false: a 400 handshake makes `authenticate` raise a
plain `Exception`, not the credentials error the claim promises for every
non-success status. -/
theorem authenticate_error_class_counterexample :
    authenticate emptySession false resp400
      = (1, .error (.generic
          "Failed to authenticate: \x7bmessage: bad request\x7d",
          emptySession))
    ∧ raisesAuthError (authenticate emptySession false resp400).2 = false :=
  ⟨rfl, rfl⟩

/-- A 401 handshake response used by the C4 witness. -/
def resp401w : Resp :=
  { status := 401, body := [("message", "bad creds")], rawBody := "" }

/-- Witness: a 401 handshake raises the credentials error with the server
message, and a well-formed 200 handshake populates the session. -/
theorem authenticate_handshake_outcomes_witness :
    authenticate emptySession false resp401w
      = (1, .error (.invalidCreds "bad creds", emptySession))
    ∧ authenticate emptySession false okHandshake = (1, .ok primedSession) := by
  have h := authenticate_handshake_outcomes
  exact ⟨h.1 emptySession false resp401w "bad creds" rfl rfl rfl,
    (h.2.2 emptySession false okHandshake primedSession rfl rfl rfl).1⟩

/-- C5 (amended): a successful parse of a 200 handshake sets all session
fields together from the response body; a handshake that raises anything
other than a `KeyError` leaves the session unchanged; but a 200 handshake
whose body is missing a field raises `KeyError` midway and may leave the
session partially updated. -/
theorem auth_fields_atomicity :
    (∀ (s : AuthState) (d : Dict) (s2 : AuthState),
        parse_and_set_auth_info s d = (s2, none) →
        s2.account_id = dictGet d "accountId"
        ∧ s2.api_url = dictGet d "apiUrl"
        ∧ s2.download_url = dictGet d "downloadUrl"
        ∧ s2.auth_token = dictGet d "authorizationToken"
        ∧ s2.api_host = (dictGet d "apiUrl").map urlNetloc
        ∧ s2.download_host = (dictGet d "downloadUrl").map urlNetloc)
    ∧ (∀ (s : AuthState) (force : Bool) (hr : Resp) (n : Nat) (e : PyErr)
        (s2 : AuthState),
        authenticate s force hr = (n, .error (e, s2)) →
        (∀ k, e ≠ .keyError k) → s2 = s) := by
  constructor
  · exact parse_ok_fields
  · intro s force hr n e s2 h hke
    unfold authenticate at h
    split at h
    · exact absurd h (by simp)
    · split at h
      · injection h with h1 h2
        injection h2 with h3
        injection h3 with h4 h5
        exact h5.symm
      · rename_i resp hresp
        split at h
        · split at h
          · exact absurd h (by simp)
          · rename_i s3 e2 hparse
            injection h with h1 h2
            injection h2 with h3
            injection h3 with h4 h5
            obtain ⟨k, hk⟩ := parse_err_keyError s resp.body s3 e2 hparse
            exact absurd (h4 ▸ hk) (hke k)
        · injection h with h1 h2
          injection h2 with h3
          injection h3 with h4 h5
          exact h5.symm

/-- The partially updated session that a malformed 200 handshake body leaves
behind. -/
def partialSession : AuthState :=
  { account_id := some "a1", api_url := none, api_host := none,
    download_url := none, download_host := none, auth_token := none }

/-- A 200 handshake response whose body is missing `apiUrl`. -/
def respMalformed : Resp :=
  { status := 200, body := [("accountId", "a1")], rawBody := "rb" }

/-- C5 as stated is false: a 200 handshake whose body carries `accountId`
but no `apiUrl` raises `KeyError` after `account_id` was already assigned,
leaving the session neither unchanged nor fully updated. -/
theorem auth_fields_atomicity_counterexample :
    (authenticate emptySession false respMalformed).2
      = .error (.keyError "apiUrl", partialSession)
    ∧ partialSession ≠ emptySession
    ∧ partialSession.account_id = some "a1"
    ∧ partialSession.auth_token = none := by
  refine ⟨rfl, ?_, rfl, rfl⟩
  decide

/-- Witness: the amended C5 at concrete inputs — a well-formed parse sets
every field, and a non-KeyError failure leaves the session unchanged. -/
theorem auth_fields_atomicity_witness :
    primedSession.auth_token = dictGet okHandshake.body "authorizationToken"
    ∧ emptySession = emptySession := by
  have h := auth_fields_atomicity
  refine ⟨(h.1 emptySession okHandshake.body primedSession rfl).2.2.2.1, ?_⟩
  exact h.2 emptySession false resp400 1
    (.generic "Failed to authenticate: \x7bmessage: bad request\x7d")
    emptySession rfl (fun k hk => PyErr.noConfusion hk)

/-- C6: `authenticate(force=false)` on a session whose token is set performs
no handshake and returns the session unchanged, so two force=false calls
starting from an unauthenticated session whose first handshake succeeds
(with a truthy token) perform exactly one handshake in total; force=true
always performs the handshake. -/
theorem authenticate_idempotent :
    (∀ (s : AuthState) (hr : Resp), truthyStr s.auth_token = true →
        authenticate s false hr = (0, .ok s))
    ∧ (∀ (s s1 : AuthState) (hr1 hr2 : Resp),
        authenticate s false hr1 = (1, .ok s1) →
        truthyStr s1.auth_token = true →
        (authenticate s false hr1).1 + (authenticate s1 false hr2).1 = 1)
    ∧ (∀ (s : AuthState) (hr : Resp), (authenticate s true hr).1 = 1) := by
  refine ⟨authenticate_primed, ?_, ?_⟩
  · intro s s1 hr1 hr2 h1 htok
    rw [h1, authenticate_primed s1 hr2 htok]
    rfl
  · intro s hr
    have hneed : is_authentication_needed s true = true := by
      simp [is_authentication_needed]
    unfold authenticate
    rw [hneed]
    simp only [not_true, if_false]
    split
    · rfl
    · split
      · split
        · rfl
        · rfl
      · rfl

/-- Witness: on the primed session a force=false call performs no handshake;
from the fresh session two force=false calls perform one handshake in
total; force=true on the primed session still handshakes. -/
theorem authenticate_idempotent_witness :
    authenticate primedSession false okHandshake = (0, .ok primedSession)
    ∧ (authenticate emptySession false okHandshake).1
        + (authenticate primedSession false okHandshake).1 = 1
    ∧ (authenticate primedSession true okHandshake).1 = 1 := by
  have h := authenticate_idempotent
  exact ⟨h.1 primedSession okHandshake (by decide),
    h.2.1 emptySession primedSession okHandshake okHandshake rfl (by decide),
    h.2.2 primedSession okHandshake⟩

theorem processResponse_non401 (r : Resp) (h : r.status ≠ 401) :
    processResponse r = .ok r := by
  unfold processResponse
  split
  · rfl
  · have hpe : parse_error r = .ok r.rawBody := by
      simp [parse_error, httplibUNAUTHORIZED, h]
    rw [hpe]

theorem processResponse_401 (r : Resp) (m : String) (h : r.status = 401)
    (hm : dictGet r.body "message" = some m) :
    processResponse r = .error (.invalidCreds m) := by
  have hsucc : respSuccess r = false := by
    simp [respSuccess, h, httplibOK, httplibCREATED, httplibACCEPTED]
  have hpe : parse_error r = .error (.invalidCreds m) := by
    simp [parse_error, h, httplibUNAUTHORIZED, hm]
  simp [processResponse, hsucc, hpe]

/-- C7: a response is a success iff its status is one of 200, 201, 202; a
401 response raises the credentials error carrying the parsed `message`
field of the body; any other non-success response is surfaced unclassified
to the caller. -/
theorem response_classification :
    (∀ r : Resp, respSuccess r = true
        ↔ (r.status = 200 ∨ r.status = 201 ∨ r.status = 202))
    ∧ (∀ (r : Resp) (m : String), r.status = 401 →
        dictGet r.body "message" = some m →
        processResponse r = .error (.invalidCreds m))
    ∧ (∀ r : Resp, respSuccess r = false → r.status ≠ 401 →
        processResponse r = .ok r) := by
  refine ⟨?_, ?_, ?_⟩
  · intro r
    simp [respSuccess, httplibOK, httplibCREATED, httplibACCEPTED]
  · intro r m h hm
    exact processResponse_401 r m h hm
  · intro r hsucc hne
    exact processResponse_non401 r hne

/-- Witness: C7 at concrete responses — 200 is a success, a 401 with a
message raises the credentials error, and a 404 is surfaced unclassified. -/
theorem response_classification_witness :
    respSuccess { status := 200, body := [], rawBody := "" } = true
    ∧ processResponse resp401w = .error (.invalidCreds "bad creds")
    ∧ processResponse { status := 404, body := [], rawBody := "nf" }
        = .ok { status := 404, body := [], rawBody := "nf" } := by
  have h := response_classification
  refine ⟨(h.1 _).2 (Or.inl rfl), h.2.1 resp401w "bad creds" rfl rfl,
    h.2.2 _ (by decide) (by decide)⟩

theorem metaKey_ne_shaKey (a : Char) :
    ("X-Bz-Info-" ++ String.mk [a]) ≠ "X-Bz-Content-Sha1" := by
  intro hcontra
  have hlen := congrArg String.length hcontra
  have h1 : ("X-Bz-Info-" ++ String.mk [a]).length
      = ("X-Bz-Info-" : String).length + (String.mk [a]).length :=
    String.length_append _ _
  have h2 : ("X-Bz-Info-" : String).length = 10 := rfl
  have h3 : (String.mk [a]).length = 1 := rfl
  have h4 : ("X-Bz-Content-Sha1" : String).length = 17 := rfl
  rw [h1, h2, h3, h4] at hlen
  exact absurd hlen (by decide)

theorem addMetaHeaders_preserves (md : Dict) (hs hs2 : Dict)
    (h : addMetaHeaders hs md = .ok hs2) :
    dictGet hs2 "X-Bz-Content-Sha1" = dictGet hs "X-Bz-Content-Sha1" := by
  induction md generalizing hs with
  | nil =>
      simp only [addMetaHeaders] at h
      injection h with h1
      rw [h1]
  | cons p rest ih =>
      obtain ⟨k, v⟩ := p
      simp only [addMetaHeaders] at h
      split at h
      · rename_i a b hk
        rw [ih _ h, dictGet_dictSet_ne _ _ _ _ (Ne.symm (metaKey_ne_shaKey a))]
      · exact absurd h (by simp)

/-- C8: for every upload that reaches the transport, the
`X-Bz-Content-Sha1` header of the upload POST equals the hex SHA-1 digest
(abstracted by the function `sha1hex`) of exactly the payload transmitted
as the request body; the body is the payload, unmodified. -/
theorem upload_sha1_header (sha1hex : String → String)
    (prevHost : Option String) (s : AuthState) (hr : Resp)
    (payload object_name : String) (content_type : Option String)
    (meta_data : Dict) (headers : Dict) (ticket : UploadTicket)
    (auth : AuthState) (out : OutRequest)
    (hnet : urlNetloc ticket.uploadUrl ≠ "")
    (h : upload_object sha1hex prevHost s hr payload object_name
        content_type meta_data headers ticket = .ok (auth, out)) :
    dictGet out.headers "X-Bz-Content-Sha1" = some (sha1hex payload)
    ∧ out.data = some (.str payload) := by
  simp only [upload_object] at h
  split at h
  · exact absurd h (by simp)
  · rename_i hs2 hmeta
    have hb := request_ok_build _ _ _ _ _ _ h
    have hh := buildRequest_ok_headers _ _ _ _ hb
    have hd := buildRequest_ok_data _ _ _ _ hb rfl
    constructor
    · rw [hh]
      have hkey : dictGet hs2 "X-Bz-Content-Sha1" = some (sha1hex payload) := by
        rw [addMetaHeaders_preserves _ _ _ hmeta]
        exact dictGet_dictSet_self _ _ _
      split
      · rw [dictGet_dictSet_ne _ _ _ _ (by decide),
          dictGet_dictSet_ne _ _ _ _ (by decide)]
        exact hkey
      · rw [dictGet_dictSet_ne _ _ _ _ (by decide)]
        exact hkey
    · rw [hd]
      have hts : truthyStr (some (urlNetloc ticket.uploadUrl)) = true := by
        simp [truthyStr, hnet]
      simp [hts]

/-- A concrete stand-in for the external hex SHA-1 used by witnesses. -/
def sha1hexW : String → String := fun p => "sha1(" ++ p ++ ")"

/-- A concrete upload ticket used by witnesses. -/
def ticketW : UploadTicket :=
  { uploadUrl := "https://pod.example/b2api/v1/b2_upload_file/bkt",
    authorizationToken := "tick" }

/-- Witness: a concrete upload carries the digest of the payload in the
`X-Bz-Content-Sha1` header and the payload itself as the body. -/
theorem upload_sha1_header_witness :
    dictGet (okOut (upload_object sha1hexW none primedSession okHandshake
        "payload" "obj.txt" none [] [] ticketW)).headers "X-Bz-Content-Sha1"
      = some (sha1hexW "payload")
    ∧ (okOut (upload_object sha1hexW none primedSession okHandshake
        "payload" "obj.txt" none [] [] ticketW)).data
      = some (.str "payload") :=
  upload_sha1_header sha1hexW none primedSession okHandshake "payload"
    "obj.txt" none [] [] ticketW primedSession
    (okOut (upload_object sha1hexW none primedSession okHandshake
      "payload" "obj.txt" none [] [] ticketW)) (by decide) rfl

/-- C9: the metadata loop is broken — `for key, value in meta_data:`
iterates the keys of the dict and unpacks each key. On the ordinary
metadata entry `color: red` the upload raises `ValueError` instead of
attaching the header `X-Bz-Info-color: red`; on a two-character key `ab`
it attaches the bogus header `X-Bz-Info-a: b` instead of
`X-Bz-Info-ab: red`. -/
theorem upload_meta_headers_bug :
    upload_object sha1hexW none primedSession okHandshake "payload" "obj.txt"
      none [("color", "red")] [] ticketW
      = .error (.valueError "cannot unpack dict key color", primedSession)
    ∧ dictGet (okOut (upload_object sha1hexW none primedSession okHandshake
        "payload" "obj.txt" none [("ab", "red")] [] ticketW)).headers
        "X-Bz-Info-ab" = none
    ∧ dictGet (okOut (upload_object sha1hexW none primedSession okHandshake
        "payload" "obj.txt" none [("ab", "red")] [] ticketW)).headers
        "X-Bz-Info-a" = some "b" :=
  ⟨rfl, rfl, rfl⟩

/-- C10 (amended): `delete_container` and `delete_object` return true iff
the response status is 200 and false for every other status except 401,
which raises the credentials error carrying the server message instead of
returning. -/
theorem delete_boolean_results :
    (∀ (prevHost : Option String) (s : AuthState) (hr : Resp)
        (bucketId : String) (resp : Resp) (auth : AuthState)
        (out : OutRequest),
        request prevHost s hr (deleteContainerArgs bucketId)
          = .ok (auth, out) →
        (resp.status ≠ 401 →
          delete_container prevHost s hr bucketId resp
            = .ok (decide (resp.status = 200)))
        ∧ (∀ m, resp.status = 401 → dictGet resp.body "message" = some m →
          delete_container prevHost s hr bucketId resp
            = .error (.invalidCreds m, auth)))
    ∧ (∀ (prevHost : Option String) (s : AuthState) (hr : Resp)
        (fileName fileId : String) (resp : Resp) (auth : AuthState)
        (out : OutRequest),
        request prevHost s hr (deleteObjectArgs fileName fileId)
          = .ok (auth, out) →
        (resp.status ≠ 401 →
          delete_object prevHost s hr fileName fileId resp
            = .ok (decide (resp.status = 200)))
        ∧ (∀ m, resp.status = 401 → dictGet resp.body "message" = some m →
          delete_object prevHost s hr fileName fileId resp
            = .error (.invalidCreds m, auth))) := by
  constructor
  · intro prevHost s hr bucketId resp auth out hreq
    constructor
    · intro hne
      simp [delete_container, hreq, processResponse_non401 resp hne, httplibOK]
    · intro m h401 hm
      simp [delete_container, hreq, processResponse_401 resp m h401 hm]
  · intro prevHost s hr fileName fileId resp auth out hreq
    constructor
    · intro hne
      simp [delete_object, hreq, processResponse_non401 resp hne, httplibOK]
    · intro m h401 hm
      simp [delete_object, hreq, processResponse_401 resp m h401 hm]

/-- A 401 response used by the C10 counterexample. -/
def resp401d : Resp :=
  { status := 401, body := [("message", "expired token")], rawBody := "" }

/-- C10 as stated is false: on a 401 response both delete operations raise
the credentials error instead of returning false. -/
theorem delete_never_raises_counterexample :
    delete_container none primedSession okHandshake "bkt1" resp401d
      = .error (.invalidCreds "expired token", primedSession)
    ∧ delete_object none primedSession okHandshake "f.txt" "fid" resp401d
      = .error (.invalidCreds "expired token", primedSession) :=
  ⟨rfl, rfl⟩

/-- Witness: deletes return true on 200 and false on 404 / 400. -/
theorem delete_boolean_results_witness :
    delete_container none primedSession okHandshake "bkt1"
      { status := 200, body := [], rawBody := "" } = .ok true
    ∧ delete_container none primedSession okHandshake "bkt1"
      { status := 404, body := [], rawBody := "nf" } = .ok false
    ∧ delete_object none primedSession okHandshake "f.txt" "fid"
      { status := 400, body := [], rawBody := "b" } = .ok false := by
  have h := delete_boolean_results
  refine ⟨?_, ?_, ?_⟩
  · exact (h.1 none primedSession okHandshake "bkt1" _ primedSession
      (okOut (request none primedSession okHandshake
        (deleteContainerArgs "bkt1"))) rfl).1 (by decide)
  · exact (h.1 none primedSession okHandshake "bkt1" _ primedSession
      (okOut (request none primedSession okHandshake
        (deleteContainerArgs "bkt1"))) rfl).1 (by decide)
  · exact (h.2 none primedSession okHandshake "f.txt" "fid" _ primedSession
      (okOut (request none primedSession okHandshake
        (deleteObjectArgs "f.txt" "fid"))) rfl).1 (by decide)

end B2
